import Mathlib

/-!
Verification of the GBStools marker-analysis core (`src/gbstools/parser.py`)
against its natural-language specification.

The Python source is shallowly embedded: machine floats are modelled as `ℚ`
where only field arithmetic and comparisons occur, and as `ℝ` where the code
takes logarithms, exponentials or non-integer powers; Python `None` becomes
`Option`; a Python exception caught by a surrounding `try/except` becomes an
`Option` failure of the modelled function.  Parameter-snapshot histories
(Python lists appended at the end, read with negative indices) are stored
most-recent-first, so `param[-1]` is the list head and `param[-2]` the second
element.
-/

/-- One aligned read at the pileup column: the called base and the raw
quality byte (Python `ord(read.alignment.qual[read.qpos])`). -/
structure PileupRead where
  base : Char
  qual : Nat
deriving DecidableEq

/-- Confusion matrix for Illumina sequencers, keyed by (actual base, read
base), from `CONFUSION_MATRIX` in `parser.py`.  The Python diagonal entries
are `None`; a lookup of a key outside ACGT raises `KeyError` in Python and is
conflated with `none` here, since every use is inside a `try/except` that
maps both to an absent result. -/
def CONFUSION_MATRIX (actual observed : Char) : Option ℚ :=
  match actual, observed with
  | 'A', 'C' => some (577/1000)
  | 'A', 'G' => some (171/1000)
  | 'A', 'T' => some (252/1000)
  | 'C', 'A' => some (349/1000)
  | 'C', 'G' => some (113/1000)
  | 'C', 'T' => some (539/1000)
  | 'G', 'A' => some (319/1000)
  | 'G', 'C' => some (51/1000)
  | 'G', 'T' => some (630/1000)
  | 'T', 'A' => some (458/1000)
  | 'T', 'C' => some (221/1000)
  | 'T', 'G' => some (320/1000)
  | _, _ => none

/-- Base-call error rate for one read: `epsilon = 10**(-(ord(qual) - offset) / 10.0)`
in `_PileupData.calculate_pl`. -/
noncomputable def epsilonOf (offset : Nat) (r : PileupRead) : ℝ :=
  (10 : ℝ) ^ (-(((r.qual : ℝ) - (offset : ℝ)) / 10))

/-- Body of the read loop of `_PileupData.calculate_pl`: one read's update of
the three accumulated log10 likelihood sums (hom-ref, het, hom-alt).  A `none`
state records that the Python loop raised (confusion-matrix entry `None`),
which the caller's `try/except` turns into an absent PL. -/
noncomputable def plStep (ref alt : Char) (offset : Nat) (acc : Option (ℝ × ℝ × ℝ))
    (r : PileupRead) : Option (ℝ × ℝ × ℝ) :=
  match acc with
  | none => none
  | some (homref, het, homnonref) =>
    if r.base = ref then
      match CONFUSION_MATRIX alt ref with
      | none => none
      | some prAlt =>
        let ε := epsilonOf offset r
        some (homref + Real.logb 10 (1 - ε),
              het + Real.logb 10 ((1 - ε * (1 + (prAlt : ℝ))) / 2),
              homnonref + Real.logb 10 (ε * (prAlt : ℝ)))
    else if r.base = alt then
      match CONFUSION_MATRIX ref alt with
      | none => none
      | some prRef =>
        let ε := epsilonOf offset r
        some (homref + Real.logb 10 (ε * (prRef : ℝ)),
              het + Real.logb 10 ((1 - ε * (1 + (prRef : ℝ))) / 2),
              homnonref + Real.logb 10 (1 - ε))
    else
      some (homref, het, homnonref)

/-- Accumulated log10 genotype-likelihood sums over all reads, starting from
`(0, 0, 0)` as in `_PileupData.calculate_pl`. -/
noncomputable def plAccum (reads : List PileupRead) (ref alt : Char) (offset : Nat) :
    Option (ℝ × ℝ × ℝ) :=
  reads.foldl (plStep ref alt offset) (some (0, 0, 0))

/-- Final step of `_PileupData.calculate_pl`: when the accumulated sum is
negative (some informative read contributed), normalize by the maximum and
scale by `-10`; otherwise the PL triple is absent. -/
noncomputable def calculate_pl (reads : List PileupRead) (ref alt : Char) (offset : Nat) :
    Option (List ℝ) :=
  match plAccum reads ref alt offset with
  | none => none
  | some (homref, het, homnonref) =>
    if homref + het + homnonref < 0 then
      let maxlik := max homref (max het homnonref)
      some [-10 * (homref - maxlik), -10 * (het - maxlik), -10 * (homnonref - maxlik)]
    else
      none

/-- Per-sample observation bundle, from `CallData` in `parser.py`. -/
structure CallData where
  sample : String
  DP : ℤ
  PL : Option (List ℤ)
  NF : ℚ
  inserts : List ℚ
  INS : Option ℚ
  self_rs : List String
  mate_rs : List String
  is_father : Bool
  is_mother : Bool
  is_child : Bool
deriving DecidableEq

/-- Constructor logic of `CallData.__init__`: a missing or `None` depth
becomes 0, and a missing, `None`, or empty `PL` list becomes an absent
triple (Python truthiness of `pl`).  A missing or unparsable normalization
factor defaults to 1.0. -/
def mkCallData (sample : String) (dp : Option ℤ) (pl : Option (List ℤ))
    (nf : Option ℚ) : CallData :=
  { sample := sample
    DP := match dp with | none => 0 | some d => d
    PL := match pl with
          | none => none
          | some l => if l.isEmpty then none else some l
    NF := nf.getD 1
    inserts := []
    INS := none
    self_rs := []
    mate_rs := []
    is_father := false
    is_mother := false
    is_child := false }

/-- Python truthiness of `call.PL` as used in `Marker.__init__`
(`[call.PL for call in calls if call.PL]`): `None` and the empty list are
falsy, a non-empty list is truthy. -/
def plTruthy (c : CallData) : Bool :=
  match c.PL with
  | none => false
  | some l => !l.isEmpty

/-- One EM parameter snapshot of an unrelated-sample hypothesis track, the
dict appended to `Marker.param['H1']` / `param['H0']`.  `exp_phi` and
`exp_delta` are solver outputs never read by the orchestration code and are
omitted. -/
structure SnapU where
  phi : ℚ × ℚ × ℚ
  lam : Option ℚ
  delta : Option ℚ
  fail : Bool
  loglik : Option ℚ
deriving DecidableEq

/-- Initialization state computed by `Marker.__init__`. -/
structure MarkerInit where
  phi0 : ℚ × ℚ × ℚ
  phi0_null : ℚ × ℚ × ℚ
  lambda0 : Option ℚ
  disp : Option ℚ
  delta0 : Option ℚ
  fail : Bool
deriving DecidableEq

/-- The depth-only-mode test of `Marker.__init__`:
`not bool([call.PL for call in calls if call.PL])`, true exactly when no call
has a truthy PL. -/
def dpMode (calls : List CallData) : Bool :=
  (calls.filter plTruthy).isEmpty

/-- Alternate-allele-frequency seed of `Marker.__init__`:
`min(0.9999, record.INFO['AF'][0])`, defaulting to 0.01 when the INFO lookup
raises (modelled by `afInfo = none`). -/
def afSeed (afInfo : Option ℚ) : ℚ :=
  match afInfo with
  | some a => min (9999/10000) a
  | none => 1/100

/-- Seed-parameter computation of `Marker.__init__`: `afInfo` models
`record.INFO['AF'][0]` (`none` when the lookup raises, giving the 0.01
default). -/
def markerInit (calls : List CallData) (slope intercept : ℚ) (afInfo : Option ℚ) :
    MarkerInit :=
  let dfreq : ℚ := 1/100
  let phi0 : ℚ × ℚ × ℚ :=
    if dpMode calls then (1 - dfreq, 0, dfreq)
    else
      let af := afSeed afInfo
      ((1 - af) * (1 - dfreq), af * (1 - dfreq), dfreq)
  let phi0_null : ℚ × ℚ × ℚ :=
    if dpMode calls then (1, 0, 0)
    else
      let af := afSeed afInfo
      (1 - af, af, 0)
  let dp : ℤ := (calls.map (fun c => c.DP)).sum
  let missing : ℕ := (calls.filter (fun c => c.DP == 0)).length
  if dp > 0 then
    let lambda0 : ℚ := (dp : ℚ) / ((calls.length : ℚ) - (missing : ℚ))
    { phi0 := phi0
      phi0_null := phi0_null
      lambda0 := some lambda0
      disp := some (slope * lambda0 + intercept)
      delta0 := some (max ((missing : ℚ) / (calls.length : ℚ)) (1/100))
      fail := false }
  else
    { phi0 := phi0
      phi0_null := phi0_null
      lambda0 := none
      disp := none
      delta0 := none
      fail := true }

/-- Initial snapshot of the alternative-hypothesis track `param['H1']`. -/
def markerInitH1 (m : MarkerInit) : SnapU :=
  { phi := m.phi0, lam := m.lambda0, delta := m.delta0, fail := m.fail, loglik := none }

/-- Initial snapshot of the null-hypothesis track `param['H0']`. -/
def markerInitH0 (m : MarkerInit) : SnapU :=
  { phi := m.phi0_null, lam := m.lambda0, delta := m.delta0, fail := m.fail, loglik := none }

/-- Convergence test of `Marker.check_convergence`, over a most-recent-first
history.  `none` models the uncaught `TypeError` Python would raise when a
compared `lambda` or `delta` is `None` (or the history is empty). -/
def Marker_check_convergence (param : List SnapU)
    (phi_tol lamb_tol delta_tol : ℚ) : Option Bool :=
  match param with
  | [] => none
  | p :: rest =>
    if p.fail then
      some true
    else
      match rest with
      | [] => some false
      | q :: _ =>
        match p.lam, q.lam with
        | some la, some lb =>
          match p.delta, q.delta with
          | some da, some db =>
            let phi_diff := max |p.phi.2.1 - q.phi.2.1| |p.phi.2.2 - q.phi.2.2|
            if phi_diff > phi_tol ∨ |la - lb| > lamb_tol ∨ |da - db| > delta_tol then
              some false
            else
              some true
          | _, _ => none
        | _, _ => none

/-- Step of `Marker.update_param`: `solverResult` models the outcome of the
external `em.update` call (`none` when it raises); on failure the previous
snapshot is copied with `fail` set. -/
def Marker_update_param (solverResult : Option SnapU) (prev : SnapU) : SnapU :=
  match solverResult with
  | some p => p
  | none => { prev with fail := true }

/-- Likelihood ratio of `Marker.likelihood_ratio`: `-2 * (loglik_H0 - loglik_H1)`
over the last snapshots of both tracks, `none` when either last log-likelihood
is `None` (the Python `TypeError` is caught and returns `None`). -/
def Marker_likelihood_ratio (paramH0 paramH1 : List SnapU) : Option ℚ :=
  match paramH0, paramH1 with
  | s0 :: _, s1 :: _ =>
    match s0.loglik, s1.loglik with
    | some a, some b => some (-2 * (a - b))
    | _, _ => none
  | _, _ => none

/-- Modelled from the spec: the per-track EM driver loop of the unrelated-sample
mode ("iterating a single-step solver to convergence", spec section 4.2).  The
loop itself lives in the CLI scripts, which are not under `src/`; it repeatedly
appends `Marker_update_param` snapshots until `Marker_check_convergence` stops
returning `some false`.  `fuel` models the externally imposed iteration cap. -/
def runEM (solver : List SnapU → Option SnapU) (phi_tol lamb_tol delta_tol : ℚ) :
    ℕ → List SnapU → List SnapU
  | 0, h => h
  | Nat.succ n, h =>
    match h with
    | [] => []
    | p :: rest =>
      match Marker_check_convergence (p :: rest) phi_tol lamb_tol delta_tol with
      | some false =>
        runEM solver phi_tol lamb_tol delta_tol n
          (Marker_update_param (solver (p :: rest)) p :: p :: rest)
      | _ => p :: rest

/-- One EM parameter snapshot of a pedigree track (`PedMarker.param[gt]`).
The log-likelihood carrier is `WithBot ℚ`, whose bottom element models the
Python float `-inf` tested by `PedMarker.update_param`. -/
structure SnapP where
  lam : Option ℚ
  fail : Bool
  loglik : Option (WithBot ℚ)
deriving DecidableEq

/-- Convergence test of `PedMarker.check_convergence`, over a most-recent-first
history; only `lambda` is compared. -/
def PedMarker_check_convergence (param : List SnapP) (lamb_tol : ℚ) : Option Bool :=
  match param with
  | [] => none
  | p :: rest =>
    if p.fail then
      some true
    else
      match rest with
      | [] => some false
      | q :: _ =>
        match p.lam, q.lam with
        | some la, some lb =>
          if |la - lb| > lamb_tol then some false else some true
        | _, _ => none

/-- Step of `PedMarker.update_param`: a solver exception (`solverResult = none`)
copies the previous snapshot with `fail` set; afterwards, a log-likelihood equal
to `-inf` forces `fail` on the new snapshot. -/
def PedMarker_update_param (solverResult : Option SnapP) (prev : SnapP) : SnapP :=
  let p := match solverResult with
           | some s => s
           | none => { prev with fail := true }
  if p.loglik = some ⊥ then { p with fail := true } else p

/-- The six single-individual genotypes as (ref, alt, dropout) allele counts,
the keys of `GT_FORMATTED` in `parser.py`. -/
def genotypes : List (ℕ × ℕ × ℕ) :=
  [(2,0,0), (1,0,1), (1,1,0), (0,2,0), (0,1,1), (0,0,2)]

/-- A joint parental genotype: the `father` and `mother` fields read by
`PedMarker.likelihood_ratio` and `PedMarker.update_info`. -/
structure TrioGT where
  father : ℕ × ℕ × ℕ
  mother : ℕ × ℕ × ℕ
deriving DecidableEq

/-- Modelled from the spec: `em.trio_gt`, the 36-member joint parental-genotype
space (spec section 3, "JointParentalGenotype"), enumerated as all pairs of the
six single-individual genotypes.  The `em` module is not under `src/`; only
its callers are. -/
def trio_gt : List TrioGT :=
  genotypes.flatMap (fun f => genotypes.map (fun m => ⟨f, m⟩))

/-- Membership test of the null subset in `PedMarker.likelihood_ratio`:
`geno.father[2] == 0 and geno.mother[2] == 0`. -/
def nullGT (g : TrioGT) : Bool :=
  g.father.2.2 == 0 && g.mother.2.2 == 0

/-- Mixture likelihood ratio of `PedMarker.likelihood_ratio`, as a function of
the final log-likelihood of each of the 36 tracks.  `maxlik` is the Python
`max` of the 36 values; the null mixture sums `e**(ll - maxlik) / 9` over the
null subset and the alternative mixture sums `e**(ll - maxlik) / 27` over the
rest; the result is `-2 * (ln h0 - ln h1)`. -/
noncomputable def PedMarker_likelihood_ratio (ll : TrioGT → ℝ) : ℝ :=
  let maxlik : ℝ :=
    match trio_gt.map ll with
    | [] => 0
    | x :: xs => xs.foldl max x
  let h0 : ℝ := ((trio_gt.filter nullGT).map
    (fun g => Real.exp (ll g - maxlik) / 9)).sum
  let h1 : ℝ := ((trio_gt.filter (fun g => !nullGT g)).map
    (fun g => Real.exp (ll g - maxlik) / 27)).sum
  let lr : ℝ := -2 * (Real.log h0 - Real.log h1)
  lr

/-- One line of a PED file, as split by `Reader.parse_ped`. -/
structure PedLine where
  fam_id : String
  indiv_id : String
  father : String
  mother : String
  sex : String
  pheno : String

/-- Family record returned by `Reader.parse_ped`. -/
structure Family where
  father : String
  mother : String
  children : List String
deriving DecidableEq

/-- Append a child under a parent-pair key, modelling
`offspring[(father, mother)].append(indiv_id)` with a `KeyError` fallback that
inserts a fresh singleton list.  The dict is modelled as an insertion-ordered
association list. -/
def offspringInsert (d : List ((String × String) × List String))
    (k : String × String) (v : String) : List ((String × String) × List String) :=
  if d.any (fun kv => kv.1 == k) then
    d.map (fun kv => if kv.1 == k then (kv.1, kv.2 ++ [v]) else kv)
  else
    d ++ [(k, [v])]

/-- The `offspring` dict built by `Reader.parse_ped`: children whose
`indiv_id` is not in the active sample list are skipped. -/
def offspringMap (samples : List String) (lines : List PedLine) :
    List ((String × String) × List String) :=
  lines.foldl
    (fun d ln =>
      if ln.indiv_id ∈ samples then offspringInsert d (ln.father, ln.mother) ln.indiv_id
      else d)
    []

/-- Python `len` of a 2-tuple of strings: always 2.  This is the key function
`lambda x: len(x)` that `Reader.parse_ped` passes to `max`, where `x` ranges
over the `(father, mother)` dict keys. -/
def parentPairLen (_ : String × String) : ℕ := 2

/-- Python `max(iterable, key=f)`: the first element attaining the maximal
key value, `none` on an empty iterable (where Python raises `ValueError`,
caught by `Reader.__init__` which then sets `family = None`). -/
def pythonMaxBy (f : String × String → ℕ) (l : List (String × String)) :
    Option (String × String) :=
  match l with
  | [] => none
  | x :: xs => some (xs.foldl (fun best y => if f best < f y then y else best) x)

/-- Family selection of `Reader.parse_ped`: build the offspring dict, then take
`max(offspring, key=lambda x: len(x))` — note the key is the length of the
parent-pair tuple itself, not of its list of children. -/
def parse_ped (samples : List String) (lines : List PedLine) : Option Family :=
  let d := offspringMap samples lines
  match pythonMaxBy parentPairLen (d.map (fun kv => kv.1)) with
  | none => none
  | some (f, m) =>
    some { father := f
           mother := m
           children := ((d.find? (fun kv => kv.1 == (f, m))).map (fun kv => kv.2)).getD [] }

/-- C2 (code bug): `Reader.parse_ped` does not select the parent pair with the
most children.  Its `max(offspring, key=lambda x: len(x))` keys on the length
of the `(father, mother)` tuple, which is 2 for every pair, so the first pair
in dict iteration order wins regardless of family size — contradicting the
source's own comment "Get the family with the largest number of offspring".
Here the pair (F1, M1) with one child is returned even though (F2, M2) has two
children in the active sample set (and the child c4 outside the sample set is
correctly ignored). -/
theorem C2_first_family_selected :
    parse_ped ["c1", "c2", "c3"]
        [⟨"f1", "c1", "F1", "M1", "1", "0"⟩,
         ⟨"f2", "c2", "F2", "M2", "1", "0"⟩,
         ⟨"f2", "c3", "F2", "M2", "1", "0"⟩,
         ⟨"f2", "c4", "F2", "M2", "1", "0"⟩] =
      some { father := "F1", mother := "M1", children := ["c1"] } ∧
    (offspringMap ["c1", "c2", "c3"]
        [⟨"f1", "c1", "F1", "M1", "1", "0"⟩,
         ⟨"f2", "c2", "F2", "M2", "1", "0"⟩,
         ⟨"f2", "c3", "F2", "M2", "1", "0"⟩,
         ⟨"f2", "c4", "F2", "M2", "1", "0"⟩]).find? (fun kv => kv.1 == ("F2", "M2")) =
      some (("F2", "M2"), ["c2", "c3"]) := by
  exact ⟨rfl, rfl⟩

/-- C3 (counterexample): the claim says the depth-only seed frequencies are
used as soon as any sample lacks genotype-likelihood data.  Here the second
sample lacks PL data, yet the seed `phi1` is derived from the allele-frequency
estimate (af = 1/2), not the depth-only value `(1 - d, 0, d)`. -/
theorem C3_any_lacking_refuted :
    (mkCallData "s2" (some 10) none none).PL = none ∧
    (markerInit [mkCallData "s1" (some 10) (some [0, 10, 100]) none,
                 mkCallData "s2" (some 10) none none] 0 (5/2) (some (1/2))).phi0 ≠
      (1 - 1/100, 0, 1/100) := by
  refine ⟨rfl, ?_⟩
  simp only [markerInit, dpMode, plTruthy, mkCallData, afSeed, List.filter]
  norm_num [min_def, Prod.ext_iff]

/-- C3 (amended): the depth-only seed frequencies `phi1 = (1-d, 0, d)`,
`phi0 = (1, 0, 0)` (d = 0.01) are used exactly when EVERY sample lacks
genotype-likelihood data; otherwise the seeds are derived from the external
alternate-allele-frequency estimate af (capped at 0.9999, defaulting to 0.01):
`phi1 = ((1-af)(1-d), af(1-d), d)`, `phi0 = (1-af, af, 0)`. -/
theorem C3_seed_allele_frequencies (calls : List CallData) (slope intercept : ℚ)
    (afInfo : Option ℚ) :
    (dpMode calls = true →
      (markerInit calls slope intercept afInfo).phi0 = (1 - 1/100, 0, 1/100) ∧
      (markerInit calls slope intercept afInfo).phi0_null = (1, 0, 0)) ∧
    (dpMode calls = false →
      (markerInit calls slope intercept afInfo).phi0 =
        ((1 - afSeed afInfo) * (1 - 1/100), afSeed afInfo * (1 - 1/100), 1/100) ∧
      (markerInit calls slope intercept afInfo).phi0_null =
        (1 - afSeed afInfo, afSeed afInfo, 0)) := by
  constructor <;> intro h <;>
    constructor <;>
      simp only [markerInit, h, if_true, if_false, Bool.false_eq_true] <;>
        split <;> rfl

/-- C3 (witness): a marker whose single sample carries no PL data is in
depth-only mode and receives the depth-only seed frequencies. -/
theorem C3_seed_allele_frequencies_witness :
    (markerInit [mkCallData "s1" (some 5) none none] 0 (5/2) none).phi0 =
      (1 - 1/100, 0, 1/100) ∧
    (markerInit [mkCallData "s1" (some 5) none none] 0 (5/2) none).phi0_null =
      (1, 0, 0) :=
  (C3_seed_allele_frequencies [mkCallData "s1" (some 5) none none] 0 (5/2) none).1
    (by decide)

/-- C4 (counterexample): the claim says a history of length exactly 1 is never
judged converged.  A zero-total-depth marker starts with a single snapshot
whose `fail` flag is set, and `Marker.check_convergence` returns true on that
one-snapshot history. -/
theorem C4_failed_singleton_converges :
    (markerInitH1 (markerInit [mkCallData "s1" (some 0) none none] 0 (5/2) none)).fail =
      true ∧
    Marker_check_convergence
        [markerInitH1 (markerInit [mkCallData "s1" (some 0) none none] 0 (5/2) none)]
        (1/1000) (1/10) (1/200) = some true := by
  decide

/-- C4 (amended): for every history of length exactly 1 whose snapshot is not
marked failed, the convergence check returns false for any tolerance
configuration, in both the unrelated-sample and the pedigree mode; a failed
single snapshot instead returns true. -/
theorem C4_single_snapshot_not_converged (s : SnapU) (p : SnapP)
    (phi_tol lamb_tol delta_tol ped_tol : ℚ) :
    (s.fail = false →
      Marker_check_convergence [s] phi_tol lamb_tol delta_tol = some false) ∧
    (p.fail = false →
      PedMarker_check_convergence [p] ped_tol = some false) := by
  constructor <;> intro h <;>
    simp [Marker_check_convergence, PedMarker_check_convergence, h]

/-- C4 (witness): the amended statement evaluated on concrete non-failed
single snapshots with the default tolerances. -/
theorem C4_single_snapshot_not_converged_witness :
    Marker_check_convergence [⟨(1, 0, 0), none, none, false, none⟩]
        (1/1000) (1/10) (1/200) = some false ∧
    PedMarker_check_convergence [⟨none, false, none⟩] (1/4) = some false :=
  ⟨(C4_single_snapshot_not_converged ⟨(1, 0, 0), none, none, false, none⟩
      ⟨none, false, none⟩ (1/1000) (1/10) (1/200) (1/4)).1 rfl,
   (C4_single_snapshot_not_converged ⟨(1, 0, 0), none, none, false, none⟩
      ⟨none, false, none⟩ (1/1000) (1/10) (1/200) (1/4)).2 rfl⟩

/-- C6: when the single-step solver fails, the appended snapshot is the
previous snapshot with only `fail` set to true; a failed head snapshot makes
the convergence check return true for any tolerances; and once the head is
failed, the EM driver loop appends nothing further for any solver and any
fuel, so all parameters beyond the freeze point are verbatim copies (the
history is unchanged). -/
theorem C6_solver_failure_freezes :
    (∀ prev : SnapU, Marker_update_param none prev = { prev with fail := true }) ∧
    (∀ (p : SnapU) (h : List SnapU) (phi_tol lamb_tol delta_tol : ℚ),
      p.fail = true →
      Marker_check_convergence (p :: h) phi_tol lamb_tol delta_tol = some true) ∧
    (∀ (solver : List SnapU → Option SnapU) (phi_tol lamb_tol delta_tol : ℚ)
       (fuel : ℕ) (p : SnapU) (h : List SnapU),
      p.fail = true →
      runEM solver phi_tol lamb_tol delta_tol fuel (p :: h) = p :: h) := by
  refine ⟨fun prev => rfl, ?_, ?_⟩
  · intro p h t1 t2 t3 hp
    simp [Marker_check_convergence, hp]
  · intro solver t1 t2 t3 fuel p h hp
    cases fuel with
    | zero => rfl
    | succ n => simp [runEM, Marker_check_convergence, hp]

/-- C6 (witness): the freeze behaviour evaluated on a concrete non-failed
snapshot (solver failure) and a concrete failed snapshot (terminal track). -/
theorem C6_solver_failure_freezes_witness :
    Marker_update_param none ⟨(1/2, 1/2, 0), some 2, some (1/100), false, some (-3)⟩ =
      { (⟨(1/2, 1/2, 0), some 2, some (1/100), false, some (-3)⟩ : SnapU) with
          fail := true } ∧
    Marker_check_convergence [⟨(1, 0, 0), none, none, true, none⟩]
        (1/1000) (1/10) (1/200) = some true ∧
    runEM (fun _ => none) (1/1000) (1/10) (1/200) 5
        [⟨(1, 0, 0), none, none, true, none⟩] =
      [⟨(1, 0, 0), none, none, true, none⟩] :=
  ⟨C6_solver_failure_freezes.1 ⟨(1/2, 1/2, 0), some 2, some (1/100), false, some (-3)⟩,
   C6_solver_failure_freezes.2.1 ⟨(1, 0, 0), none, none, true, none⟩ []
     (1/1000) (1/10) (1/200) rfl,
   C6_solver_failure_freezes.2.2 (fun _ => none) (1/1000) (1/10) (1/200) 5
     ⟨(1, 0, 0), none, none, true, none⟩ [] rfl⟩

/-- C7: the unrelated-sample likelihood ratio is `-2 * (loglik_H0 - loglik_H1)`
when both final log-likelihoods are present, and absent (not a crash) when
either is undefined; a zero-total-depth marker starts both tracks failed with
undefined log-likelihood, so its ratio is absent. -/
theorem C7_likelihood_ratio_absent :
    (∀ (s0 s1 : SnapU) (h0 h1 : List SnapU) (a b : ℚ),
      s0.loglik = some a → s1.loglik = some b →
      Marker_likelihood_ratio (s0 :: h0) (s1 :: h1) = some (-2 * (a - b))) ∧
    (∀ (s0 s1 : SnapU) (h0 h1 : List SnapU),
      s0.loglik = none ∨ s1.loglik = none →
      Marker_likelihood_ratio (s0 :: h0) (s1 :: h1) = none) ∧
    (∀ (calls : List CallData) (slope intercept : ℚ) (afInfo : Option ℚ),
      (calls.map (fun c => c.DP)).sum = 0 →
      (markerInitH0 (markerInit calls slope intercept afInfo)).fail = true ∧
      (markerInitH1 (markerInit calls slope intercept afInfo)).fail = true ∧
      Marker_likelihood_ratio
          [markerInitH0 (markerInit calls slope intercept afInfo)]
          [markerInitH1 (markerInit calls slope intercept afInfo)] = none) := by
  refine ⟨?_, ?_, ?_⟩
  · intro s0 s1 h0 h1 a b ha hb
    simp [Marker_likelihood_ratio, ha, hb]
  · intro s0 s1 h0 h1 hor
    rcases hor with h | h
    · simp [Marker_likelihood_ratio, h]
    · cases hs : s0.loglik <;> simp [Marker_likelihood_ratio, h, hs]
  · intro calls slope intercept afInfo hdp
    have hfail : (markerInit calls slope intercept afInfo).fail = true := by
      simp [markerInit, hdp]
    refine ⟨hfail, hfail, ?_⟩
    simp [Marker_likelihood_ratio, markerInitH0, markerInitH1]

/-- C7 (witness): a concrete 4-sample zero-depth marker has both initial
tracks failed with undefined log-likelihood and an absent likelihood ratio. -/
theorem C7_likelihood_ratio_absent_witness :
    (markerInitH0 (markerInit
        [mkCallData "s1" (some 0) none none, mkCallData "s2" (some 0) none none,
         mkCallData "s3" (some 0) none none, mkCallData "s4" (some 0) none none]
        0 (5/2) none)).fail = true ∧
    (markerInitH1 (markerInit
        [mkCallData "s1" (some 0) none none, mkCallData "s2" (some 0) none none,
         mkCallData "s3" (some 0) none none, mkCallData "s4" (some 0) none none]
        0 (5/2) none)).fail = true ∧
    Marker_likelihood_ratio
        [markerInitH0 (markerInit
          [mkCallData "s1" (some 0) none none, mkCallData "s2" (some 0) none none,
           mkCallData "s3" (some 0) none none, mkCallData "s4" (some 0) none none]
          0 (5/2) none)]
        [markerInitH1 (markerInit
          [mkCallData "s1" (some 0) none none, mkCallData "s2" (some 0) none none,
           mkCallData "s3" (some 0) none none, mkCallData "s4" (some 0) none none]
          0 (5/2) none)] = none :=
  C7_likelihood_ratio_absent.2.2
    [mkCallData "s1" (some 0) none none, mkCallData "s2" (some 0) none none,
     mkCallData "s3" (some 0) none none, mkCallData "s4" (some 0) none none]
    0 (5/2) none (by decide)

/-- C8: in pedigree mode a solver log-likelihood of exactly negative infinity
forces the `fail` flag on that same snapshot, and a solver exception yields a
copy of the previous snapshot with `fail` set. -/
theorem C8_neginf_forces_failure :
    (∀ (prev s : SnapP), s.loglik = some ⊥ →
      PedMarker_update_param (some s) prev = { s with fail := true }) ∧
    (∀ prev : SnapP, PedMarker_update_param none prev = { prev with fail := true }) := by
  constructor
  · intro prev s hs
    simp [PedMarker_update_param, hs]
  · intro prev
    simp only [PedMarker_update_param]
    split <;> rfl

/-- C8 (witness): the negative-infinity and exception cases evaluated on
concrete snapshots. -/
theorem C8_neginf_forces_failure_witness :
    PedMarker_update_param (some ⟨some 1, false, some ⊥⟩) ⟨some 2, false, none⟩ =
      ⟨some 1, true, some ⊥⟩ ∧
    PedMarker_update_param none ⟨some 2, false, none⟩ = ⟨some 2, true, none⟩ :=
  ⟨C8_neginf_forces_failure.1 ⟨some 2, false, none⟩ ⟨some 1, false, some ⊥⟩ rfl,
   C8_neginf_forces_failure.2 ⟨some 2, false, none⟩⟩

/-- C9 (counterexample): `CallData` does not enforce the depth-0 invariant:
a record built from supplied VCF-style fields with depth 0 and a non-empty PL
list keeps its genotype-likelihood triple. -/
theorem C9_calldata_depth_zero_pl_present :
    (mkCallData "s1" (some 0) (some [0, 0, 0]) none).DP = 0 ∧
    (mkCallData "s1" (some 0) (some [0, 0, 0]) none).PL = some [0, 0, 0] :=
  ⟨rfl, rfl⟩

/-- Helper: reads whose base matches neither allele leave the three
accumulated log10 sums at their initial zeros. -/
theorem plAccum_uninformative (reads : List PileupRead) (ref alt : Char) (offset : Nat)
    (h : ∀ r ∈ reads, r.base ≠ ref ∧ r.base ≠ alt) :
    plAccum reads ref alt offset = some (0, 0, 0) := by
  unfold plAccum
  induction reads with
  | nil => rfl
  | cons r rs ih =>
    have hr := h r (List.mem_cons_self r rs)
    have hstep : plStep ref alt offset (some (0, 0, 0)) r = some (0, 0, 0) := by
      simp [plStep, hr.1, hr.2]
    rw [List.foldl_cons, hstep]
    exact ih (fun x hx => h x (List.mem_cons_of_mem r hx))

/-- C9 (amended): the pileup-based genotype-likelihood computation yields an
absent result whenever no informative read contributed — in particular the
empty read list (pileup depth 0) gives an absent PL triple.  The `CallData`
constructor itself does not enforce the depth-0 invariant for records built
from supplied VCF fields (see the counterexample). -/
theorem C9_pileup_no_informative_reads (reads : List PileupRead) (ref alt : Char)
    (offset : Nat) :
    calculate_pl ([] : List PileupRead) ref alt offset = none ∧
    ((∀ r ∈ reads, r.base ≠ ref ∧ r.base ≠ alt) →
      calculate_pl reads ref alt offset = none) := by
  constructor
  · simp [calculate_pl, plAccum]
  · intro h
    rw [calculate_pl, plAccum_uninformative reads ref alt offset h]
    simp

/-- C9 (witness): a single read of base G at an A/C site is uninformative, so
the PL triple is absent; so is the empty pileup. -/
theorem C9_pileup_no_informative_reads_witness :
    calculate_pl ([] : List PileupRead) 'A' 'C' 33 = none ∧
    calculate_pl [⟨'G', 53⟩] 'A' 'C' 33 = none :=
  ⟨(C9_pileup_no_informative_reads [⟨'G', 53⟩] 'A' 'C' 33).1,
   (C9_pileup_no_informative_reads [⟨'G', 53⟩] 'A' 'C' 33).2 (by decide)⟩

/-- C10: whenever `calculate_pl` produces a Phred-scaled triple, every entry
is non-negative and the entry of the maximum accumulated log10 likelihood is
exactly 0, since the triple is `-10 * (lik - max lik)` componentwise. -/
theorem C10_pl_normalized (reads : List PileupRead) (ref alt : Char) (offset : Nat)
    (pl : List ℝ) (h : calculate_pl reads ref alt offset = some pl) :
    (∀ x ∈ pl, 0 ≤ x) ∧ (0 : ℝ) ∈ pl := by
  unfold calculate_pl at h
  cases hacc : plAccum reads ref alt offset with
  | none => rw [hacc] at h; exact absurd h (by simp)
  | some t =>
    obtain ⟨a, b, c⟩ := t
    rw [hacc] at h
    by_cases hs : a + b + c < 0
    · rw [show (match (some (a, b, c) : Option (ℝ × ℝ × ℝ)) with
          | none => none
          | some (homref, het, homnonref) =>
            if homref + het + homnonref < 0 then
              let maxlik := max homref (max het homnonref)
              some [-10 * (homref - maxlik), -10 * (het - maxlik),
                    -10 * (homnonref - maxlik)]
            else none) =
          (if a + b + c < 0 then
            some [-10 * (a - max a (max b c)), -10 * (b - max a (max b c)),
                  -10 * (c - max a (max b c))]
          else none) from rfl, if_pos hs] at h
      have hpl := (Option.some.inj h).symm
      subst hpl
      have ha : a ≤ max a (max b c) := le_max_left a (max b c)
      have hb : b ≤ max a (max b c) :=
        le_trans (le_max_left b c) (le_max_right a (max b c))
      have hc : c ≤ max a (max b c) :=
        le_trans (le_max_right b c) (le_max_right a (max b c))
      constructor
      · intro x hx
        simp only [List.mem_cons, List.not_mem_nil, or_false] at hx
        rcases hx with hx | hx | hx <;> rw [hx] <;> nlinarith
      · have hm : max a (max b c) = a ∨ max a (max b c) = b ∨ max a (max b c) = c := by
          rcases max_choice a (max b c) with hm | hm
          · exact Or.inl hm
          · rcases max_choice b c with hm' | hm'
            · exact Or.inr (Or.inl (hm.trans hm'))
            · exact Or.inr (Or.inr (hm.trans hm'))
        rcases hm with hm | hm | hm
        · exact List.mem_cons.mpr (Or.inl (by rw [hm]; ring))
        · refine List.mem_cons.mpr (Or.inr (List.mem_cons.mpr (Or.inl ?_)))
          rw [hm]; ring
        · refine List.mem_cons.mpr (Or.inr (List.mem_cons.mpr
            (Or.inr (List.mem_cons.mpr (Or.inl ?_)))))
          rw [hm]; ring
    · rw [show (match (some (a, b, c) : Option (ℝ × ℝ × ℝ)) with
          | none => none
          | some (homref, het, homnonref) =>
            if homref + het + homnonref < 0 then
              let maxlik := max homref (max het homnonref)
              some [-10 * (homref - maxlik), -10 * (het - maxlik),
                    -10 * (homnonref - maxlik)]
            else none) =
          (if a + b + c < 0 then
            some [-10 * (a - max a (max b c)), -10 * (b - max a (max b c)),
                  -10 * (c - max a (max b c))]
          else none) from rfl, if_neg hs] at h
      exact absurd h (by simp)

/-- Helper: the base-call error rate of quality byte 53 at offset 33 is
`10 ** (-20/10) = 1/100`. -/
theorem epsilonOf_53 (b : Char) : epsilonOf 33 ⟨b, 53⟩ = 1/100 := by
  unfold epsilonOf
  rw [show -((((53 : Nat) : ℝ) - ((33 : Nat) : ℝ)) / 10) = -((2 : Nat) : ℝ) by norm_num]
  rw [Real.rpow_neg (by norm_num : (0 : ℝ) ≤ 10), Real.rpow_natCast]
  norm_num

/-- Helper: the accumulated log10 sums for a single read with base = ref = A,
quality byte 53, alt = C.  The hom-alt direction uses
`pr_alt = CONFUSION_MATRIX['C']['A'] = 0.349`. -/
theorem plAccum_single_A53 :
    plAccum [⟨'A', 53⟩] 'A' 'C' 33 =
      some (Real.logb 10 (1 - 1/100),
            Real.logb 10 ((1 - (1/100) * (1 + 349/1000)) / 2),
            Real.logb 10 ((1/100) * (349/1000))) := by
  have hcast : (((349 : ℚ)/1000 : ℚ) : ℝ) = 349/1000 := by norm_num
  simp only [plAccum, List.foldl, plStep, CONFUSION_MATRIX, epsilonOf_53, hcast,
    if_pos, zero_add]

/-- C1 (amended): for a single aligned read with observed base equal to the
reference allele, quality byte 53 (epsilon = 10^-2), ref = A, alt = C, the
accumulation adds `log10(1 - 0.01)` to hom-ref,
`log10((1 - 0.01*(1 + 0.349))/2)` to het and `log10(0.01*0.349)` to hom-alt,
where 0.349 = CONFUSION_MATRIX['C']['A'] is the code's `pr_alt` for this
allele pair (the spec's 0.577 is CONFUSION_MATRIX['A']['C'], i.e. `pr_ref`). -/
theorem C1_single_read_terms :
    plAccum [⟨'A', 53⟩] 'A' 'C' 33 =
      some (Real.logb 10 (1 - 1/100),
            Real.logb 10 ((1 - (1/100) * (1 + 349/1000)) / 2),
            Real.logb 10 ((1/100) * (349/1000))) :=
  plAccum_single_A53

/-- C1 (counterexample): the claim's het and hom-alt terms, which use 0.577,
do not match the computed accumulation: the het log arguments 0.493255 (code)
and 0.492115 (claim) differ, and log10 is strictly monotone. -/
theorem C1_spec_terms_refuted :
    plAccum [⟨'A', 53⟩] 'A' 'C' 33 ≠
      some (Real.logb 10 (1 - 1/100),
            Real.logb 10 ((1 - (1/100) * (1 + 577/1000)) / 2),
            Real.logb 10 ((1/100) * (577/1000))) := by
  rw [plAccum_single_A53]
  intro hEq
  have ht := Option.some.inj hEq
  have h2 : Real.logb 10 ((1 - (1/100) * (1 + 349/1000)) / 2) =
      Real.logb 10 ((1 - (1/100) * (1 + 577/1000)) / 2) :=
    congrArg (fun t : ℝ × ℝ × ℝ => t.2.1) ht
  have hlt : Real.logb 10 ((1 - (1/100) * (1 + 577/1000)) / 2) <
      Real.logb 10 ((1 - (1/100) * (1 + 349/1000)) / 2) :=
    Real.logb_lt_logb (by norm_num) (by norm_num) (by norm_num)
  rw [h2] at hlt
  exact lt_irrefl _ hlt

/-- Helper: on the single A-base read the accumulated sum is negative, so
`calculate_pl` emits the normalized triple. -/
theorem calculate_pl_single_A53 :
    calculate_pl [⟨'A', 53⟩] 'A' 'C' 33 =
      some [-10 * (Real.logb 10 (1 - 1/100) -
              max (Real.logb 10 (1 - 1/100))
                (max (Real.logb 10 ((1 - (1/100) * (1 + 349/1000)) / 2))
                  (Real.logb 10 ((1/100) * (349/1000))))),
            -10 * (Real.logb 10 ((1 - (1/100) * (1 + 349/1000)) / 2) -
              max (Real.logb 10 (1 - 1/100))
                (max (Real.logb 10 ((1 - (1/100) * (1 + 349/1000)) / 2))
                  (Real.logb 10 ((1/100) * (349/1000))))),
            -10 * (Real.logb 10 ((1/100) * (349/1000)) -
              max (Real.logb 10 (1 - 1/100))
                (max (Real.logb 10 ((1 - (1/100) * (1 + 349/1000)) / 2))
                  (Real.logb 10 ((1/100) * (349/1000)))))] := by
  have h1 : Real.logb 10 (1 - 1/100) < 0 :=
    Real.logb_neg (by norm_num) (by norm_num) (by norm_num)
  have h2 : Real.logb 10 ((1 - (1/100) * (1 + 349/1000)) / 2) < 0 :=
    Real.logb_neg (by norm_num) (by norm_num) (by norm_num)
  have h3 : Real.logb 10 ((1/100) * (349/1000)) < 0 :=
    Real.logb_neg (by norm_num) (by norm_num) (by norm_num)
  unfold calculate_pl
  rw [plAccum_single_A53]
  exact if_pos (by linarith)

/-- C10 (witness): the normalization property evaluated on the concrete
triple produced by the single A-base read. -/
theorem C10_pl_normalized_witness :
    (∀ x ∈ [-10 * (Real.logb 10 (1 - 1/100) -
              max (Real.logb 10 (1 - 1/100))
                (max (Real.logb 10 ((1 - (1/100) * (1 + 349/1000)) / 2))
                  (Real.logb 10 ((1/100) * (349/1000))))),
            -10 * (Real.logb 10 ((1 - (1/100) * (1 + 349/1000)) / 2) -
              max (Real.logb 10 (1 - 1/100))
                (max (Real.logb 10 ((1 - (1/100) * (1 + 349/1000)) / 2))
                  (Real.logb 10 ((1/100) * (349/1000))))),
            -10 * (Real.logb 10 ((1/100) * (349/1000)) -
              max (Real.logb 10 (1 - 1/100))
                (max (Real.logb 10 ((1 - (1/100) * (1 + 349/1000)) / 2))
                  (Real.logb 10 ((1/100) * (349/1000)))))], 0 ≤ x) ∧
    (0 : ℝ) ∈ [-10 * (Real.logb 10 (1 - 1/100) -
              max (Real.logb 10 (1 - 1/100))
                (max (Real.logb 10 ((1 - (1/100) * (1 + 349/1000)) / 2))
                  (Real.logb 10 ((1/100) * (349/1000))))),
            -10 * (Real.logb 10 ((1 - (1/100) * (1 + 349/1000)) / 2) -
              max (Real.logb 10 (1 - 1/100))
                (max (Real.logb 10 ((1 - (1/100) * (1 + 349/1000)) / 2))
                  (Real.logb 10 ((1/100) * (349/1000))))),
            -10 * (Real.logb 10 ((1/100) * (349/1000)) -
              max (Real.logb 10 (1 - 1/100))
                (max (Real.logb 10 ((1 - (1/100) * (1 + 349/1000)) / 2))
                  (Real.logb 10 ((1/100) * (349/1000)))))] :=
  C10_pl_normalized [⟨'A', 53⟩] 'A' 'C' 33 _ calculate_pl_single_A53

/-- C5: the pedigree likelihood ratio sums `exp(LL - maxLL)/9` over the 9
genotypes with both parents dropout-free and `exp(LL - maxLL)/27` over the
remaining 27, returning `-2 * (ln H0 - ln H1)`; when all 36 final
log-likelihoods are equal both mixtures normalize to 1 and the ratio is
exactly 0. -/
theorem C5_mixture_ratio_uniform_zero :
    (trio_gt.filter nullGT).length = 9 ∧
    (trio_gt.filter (fun g => !nullGT g)).length = 27 ∧
    ∀ c : ℝ, PedMarker_likelihood_ratio (fun _ => c) = 0 := by
  refine ⟨by decide, by decide, ?_⟩
  intro c
  simp [PedMarker_likelihood_ratio, trio_gt, genotypes, nullGT, max_self,
    Real.exp_zero, Real.log_one]
  norm_num



